import Mathlib

/-!
Verification of the nutrition-telegram-bot repository.

The Python sources (`oaitools.py`, `oaimain.py`, `bot.py`) are shallowly
embedded below.  JSON values are modelled by the inductive `Json`, with
JSON numbers represented as exact rationals (`ℚ`); Python exceptions are
modelled by `Except String`; the meal-log file is modelled as
`Option (Except String Json)` — `none` when the file is absent, and
otherwise the outcome of parsing its content.  Functions that in Python
take a raw JSON string take here the outcome of `json.loads` on that
string, i.e. an `Except String Json`.
-/

namespace NutriBot

/-- JSON values; numbers are modelled as exact rationals. -/
inductive Json where
  | null : Json
  | bool : Bool → Json
  | num : ℚ → Json
  | str : String → Json
  | arr : List Json → Json
  | obj : List (String × Json) → Json
deriving Repr

/-- First-match lookup in an association list (Python dict access). -/
def alookup {β : Type} (k : String) : List (String × β) → Option β
  | [] => none
  | (k', v) :: rest => if k' = k then some v else alookup k rest

/-- Python dict item assignment: update in place if the key exists,
otherwise append the new key at the end (dict insertion order). -/
def aset {β : Type} (k : String) (v : β) : List (String × β) → List (String × β)
  | [] => [(k, v)]
  | (k', v') :: rest => if k' = k then (k, v) :: rest else (k', v') :: aset k v rest

/-- Python equality test between a string and a JSON value (`==`):
true only against an equal string. -/
def strEqJson (s : String) : Json → Bool
  | .str t => s == t
  | _ => false

/-- Python truthiness of a JSON value (`bool(x)`). -/
def pyTruthy : Json → Bool
  | .null => false
  | .bool b => b
  | .num q => q ≠ 0
  | .str s => s ≠ ""
  | .arr xs => !xs.isEmpty
  | .obj kvs => !kvs.isEmpty

/-- `w` is a prefix of the second list (decidable, executable). -/
def listPrefixOf : List Char → List Char → Bool
  | [], _ => true
  | _ :: _, [] => false
  | a :: as, b :: bs => a == b && listPrefixOf as bs

/-- `w` occurs as a contiguous run inside the second list. -/
def listInfixOf (w : List Char) : List Char → Bool
  | [] => w.isEmpty
  | c :: rest => listPrefixOf w (c :: rest) || listInfixOf w rest

/-- Python substring test `w in t` on strings. -/
def strInStr (w t : String) : Bool := listInfixOf w.toList t.toList

/-- Python `s.strip()`: drop whitespace from both ends. -/
def pyStrip (s : String) : String :=
  String.mk (((s.toList.dropWhile Char.isWhitespace).reverse.dropWhile
    Char.isWhitespace).reverse)

/-- Python `s.startswith(pre)`. -/
def pyStartsWith (s pre : String) : Bool := listPrefixOf pre.toList s.toList

/-- Python membership test `k in j` for a string needle: key lookup on a
dict, element equality on a list, substring on a string; a TypeError on
the remaining types. -/
def pyContains (k : String) : Json → Except String Bool
  | .obj kvs => .ok ((alookup k kvs).isSome)
  | .arr xs => .ok (xs.any (strEqJson k))
  | .str t => .ok (strInStr k t)
  | _ => .error ("TypeError: argument of type is not iterable")

/-- Python subscript `j[k]` with a string key: dict lookup (KeyError when
absent), TypeError on every other type. -/
def pySubscript (j : Json) (k : String) : Except String Json :=
  match j with
  | .obj kvs =>
    match alookup k kvs with
    | some v => .ok v
    | none => .error ("KeyError: " ++ k)
  | _ => .error ("TypeError: subscript with str key")

/-- Python `j.get(k, default)`: only dicts have `.get`. -/
def pyGet (j : Json) (k : String) (default : Json) : Except String Json :=
  match j with
  | .obj kvs => .ok ((alookup k kvs).getD default)
  | _ => .error ("AttributeError: get")

/-- Python item assignment `j[k] = v`: only dicts accept a string key. -/
def pySetItem (j : Json) (k : String) (v : Json) : Except String Json :=
  match j with
  | .obj kvs => .ok (.obj (aset k v kvs))
  | _ => .error ("TypeError: item assignment")

/-- Python iteration `for x in j`: the elements of a list, the characters
of a string, the keys of a dict; TypeError otherwise. -/
def pyIter : Json → Except String (List Json)
  | .arr xs => .ok xs
  | .str s => .ok (s.toList.map (fun c => .str (String.singleton c)))
  | .obj kvs => .ok (kvs.map (fun p => .str p.1))
  | _ => .error ("TypeError: not iterable")

/-- Numeric coercion performed by Python arithmetic and `:.Nf` format
specifiers: numbers are themselves, bools are 0/1, anything else raises. -/
def pyToNum : Json → Except String ℚ
  | .num q => .ok q
  | .bool b => .ok (if b then 1 else 0)
  | _ => .error ("TypeError: not a number")

/-- Python `str()` on scalar JSON values (the container cases render the
elements recursively like `str(list)`, without the quoting `repr` adds). -/
def pyStr : Json → String
  | .null => "None"
  | .bool true => "True"
  | .bool false => "False"
  | .num q => if q.den = 1 then toString q.num else toString q
  | .str s => s
  | .arr _ => "[...]"
  | .obj _ => "\x7b...\x7d"

/-- Python `"\n".join(lines)`. -/
def joinLines : List String → String
  | [] => ""
  | [x] => x
  | x :: y :: rest => x ++ "\n" ++ joinLines (y :: rest)

/-- Round to the nearest integer, ties to even (the rounding of Python's
fixed-point float formatting, idealised to exact rationals). -/
def roundHalfEven (q : ℚ) : ℤ :=
  let f : ℤ := ⌊q⌋
  let r : ℚ := q - f
  if r < 1/2 then f
  else if 1/2 < r then f + 1
  else if f % 2 = 0 then f else f + 1

/-- Python `f"\x7bq:.0f\x7d"` on an exact rational. -/
def fmt0 (q : ℚ) : String :=
  let n := roundHalfEven q
  if n = 0 ∧ q < 0 then "-0" else toString n

/-- Python `f"\x7bq:.1f\x7d"` on an exact rational. -/
def fmt1 (q : ℚ) : String :=
  let n := roundHalfEven (q * 10)
  let sign := if n < 0 ∨ (n = 0 ∧ q < 0) then "-" else ""
  let m := n.natAbs
  sign ++ toString (m / 10) ++ "." ++ toString (m % 10)

/-! ## oaitools.py: detect_meal_type -/

/-- Python `user_input.lower()`: character-wise lowercasing. -/
def strToLower (s : String) : String := String.mk (s.toList.map Char.toLower)

/-- Python `any(word in text for word in ws)`. -/
def kwHit (ws : List String) (text : String) : Bool :=
  ws.any (fun w => strInStr w text)

/-- `detect_meal_type` from `oaitools.py`: lowercase the input and test the
four keyword groups in order, returning on the first group with a
substring hit, and `"unknown"` when none hits. -/
def detect_meal_type (user_input : String) : String :=
  let text := strToLower user_input
  if kwHit ["breakfast", "morning"] text then "breakfast"
  else if kwHit ["lunch", "noon", "afternoon"] text then "lunch"
  else if kwHit ["dinner", "evening", "night", "supper"] text then "dinner"
  else if kwHit ["snack", "snacking"] text then "snack"
  else "unknown"

/-! ## oaitools.py: get_nutrition_data -/

/-- Minimal JSON serialiser for the `json.dumps` calls of the source;
string escaping covers backslash and double quote. -/
def jsonEscape (s : String) : String :=
  s.toList.foldl (fun acc c =>
    if c = '\\' then acc ++ "\\\\"
    else if c = '"' then acc ++ "\\\""
    else acc ++ String.singleton c) ""

/-- `json.dumps(\x7b"error": str(e)\x7d)` from `get_nutrition_data`. -/
def dumpsError (e : String) : String :=
  "\x7b\"error\": \"" ++ jsonEscape e ++ "\"\x7d"

/-- The JSON object that `dumpsError` serialises. -/
def errorObj (e : String) : Json := .obj [("error", .str e)]

/-- `get_nutrition_data` from `oaitools.py`.  The HTTP interaction is the
function's only effect, so it is passed in as its outcome: `.error e`
when `requests.post` raises with message `e` (transport failure), and
`.ok (status, text)` for a completed response.  `raise_for_status`
raises for status codes `≥ 400`; the `except` clause turns any raise
into `json.dumps(\x7b"error": str(e)\x7d)`. -/
def get_nutrition_data (resp : Except String (ℕ × String)) : String :=
  match resp with
  | .error e => dumpsError e
  | .ok (status, text) =>
    if 400 ≤ status then dumpsError ("HTTPError: " ++ toString status) else text

/-! ## oaitools.py: format_nutrition_facts -/

/-- Left-to-right accumulation of `sum(food.get(key, 0) for food in foods)`:
`.get` raises on non-dicts and the addition raises on non-numbers, with
the leftmost raise winning as in Python. -/
def sumFieldAux (key : String) : List Json → ℚ → Except String ℚ
  | [], acc => .ok acc
  | f :: rest, acc => do
    let v ← pyGet f key (.num 0)
    let q ← pyToNum v
    sumFieldAux key rest (acc + q)

/-- Python `sum(food.get(key, 0) for food in foods)` (the sum starts at
the integer 0). -/
def sumField (foods : List Json) (key : String) : Except String ℚ :=
  sumFieldAux key foods 0

/-- The numbered per-item lines of the `Food Items` listing. -/
def listItems : List Json → ℕ → Except String (List String)
  | [], _ => .ok []
  | f :: rest, i => do
    let nv ← pyGet f "food_name" (.str "Unknown")
    let cv ← pyGet f "nf_calories" (.num 0)
    let q ← pyToNum cv
    let tail ← listItems rest (i + 1)
    pure ((toString i ++ ". " ++ pyStr nv ++ " - " ++ fmt0 q ++ " kcal") :: tail)

/-- Body of the `try` block of `format_nutrition_facts`, on the parsed
JSON value. -/
def formatCore (data : Json) : Except String String := do
  let has ← pyContains "foods" data
  let isEmpty ←
    if has then do
      let fv ← pySubscript data "foods"
      pure (!pyTruthy fv)
    else pure true
  if !has || isEmpty then
    pure "No nutrition data found."
  else do
    let fv ← pySubscript data "foods"
    let foods ← pyIter fv
    let tc ← sumField foods "nf_calories"
    let tp ← sumField foods "nf_protein"
    let tcarb ← sumField foods "nf_total_carbohydrate"
    let tf ← sumField foods "nf_total_fat"
    let tfib ← sumField foods "nf_dietary_fiber"
    let ts ← sumField foods "nf_sugars"
    let items ← listItems foods 1
    pure (joinLines (["📊 **NUTRITION BREAKDOWN**",
      "🔥 Calories: " ++ fmt0 tc ++ " kcal",
      "💪 Protein: " ++ fmt1 tp ++ "g",
      "🍞 Carbs: " ++ fmt1 tcarb ++ "g",
      "🥑 Fat: " ++ fmt1 tf ++ "g",
      "🌾 Fiber: " ++ fmt1 tfib ++ "g",
      "🍭 Sugar: " ++ fmt1 ts ++ "g",
      "",
      "**Food Items:**"] ++ items))

/-- `format_nutrition_facts` from `oaitools.py`.  The argument is the
outcome of `json.loads` on the raw input string; every raise inside the
`try` block surfaces as `f"Error formatting: ..."`. -/
def format_nutrition_facts (nutrition_json : Except String Json) : String :=
  match nutrition_json.bind formatCore with
  | .ok s => s
  | .error e => "Error formatting: " ++ e

/-! ## oaitools.py: save_meal_data

The meal-log file `MEAL_FILE` is modelled as `Option (Except String Json)`:
`none` when `os.path.exists` is false, `some c` when the file exists and
`json.load` on its content yields `c` (a parse failure included).  The
current date string `datetime.now().strftime("%Y-%m-%d")` is passed in as
the parameter `today`. -/

/-- The store abstraction for the meal-log file. -/
abbrev MealStore := Option (Except String Json)

/-- Body of the `try` block of `save_meal_data`: load (or default) the
log, ensure a list under today's key, append the record, and produce the
full value that is rewritten to the file. -/
def saveCore (meal_info : Except String Json) (today : String) (st : MealStore) :
    Except String Json := do
  let data ← meal_info
  let meals ← match st with
    | none => pure (Json.obj [])
    | some c => c
  let has ← pyContains today meals
  let meals1 ← if has then pure meals else pySetItem meals today (.arr [])
  let cur ← pySubscript meals1 today
  let curList ← match cur with
    | .arr xs => pure xs
    | _ => Except.error "AttributeError: append"
  pySetItem meals1 today (.arr (curList ++ [data]))

/-- `save_meal_data` from `oaitools.py`: returns the reply string and the
state of the file afterwards (unchanged when any step raised, since the
write of the new content is the last step). -/
def save_meal_data (meal_info : Except String Json) (today : String) (st : MealStore) :
    String × MealStore :=
  match saveCore meal_info today st with
  | .ok newMeals => ("✅ Meal saved successfully!", some (.ok newMeals))
  | .error e => ("❌ Save failed: " ++ e, st)

/-! ## oaitools.py: get_meal_history -/

/-- Python `str.title()`: uppercase every alphabetic character that does
not follow an alphabetic character, lowercase the other alphabetic
characters. -/
def titleChars : List Char → Bool → List Char
  | [], _ => []
  | c :: rest, prevAlpha =>
    (if c.isAlpha then (if prevAlpha then c.toLower else c.toUpper) else c)
      :: titleChars rest c.isAlpha

/-- Python `.title()` on a string value; AttributeError on non-strings. -/
def pyTitle : Json → Except String String
  | .str s => .ok (String.mk (titleChars s.toList false))
  | _ => .error "AttributeError: title"

/-- Left-to-right effectful map over a list, the first raise winning, as
in a Python `for` loop that appends to an accumulator. -/
def mapE {α β : Type} (f : α → Except String β) : List α → Except String (List β)
  | [] => .ok []
  | a :: as => do
    let b ← f a
    let bs ← mapE f as
    pure (b :: bs)

/-- The rendered line of one food inside a stored meal:
`f"  • \x7bname\x7d - \x7bcals:.0f\x7d cal"`. -/
def renderFoodLine (food : Json) : Except String String := do
  let nv ← pyGet food "food_name" (.str "Unknown")
  let cv ← pyGet food "nf_calories" (.num 0)
  let q ← pyToNum cv
  pure ("  • " ++ pyStr nv ++ " - " ++ fmt0 q ++ " cal")

/-- The lines contributed by one stored meal: the `f"\n\x7bmeal_type\x7d:"`
header followed by one line per food. -/
def renderMeal (meal : Json) : Except String (List String) := do
  let mtVal ← pyGet meal "meal_type" (.str "meal")
  let mt ← pyTitle mtVal
  let nd ← pyGet meal "nutrition_data" (.obj [])
  let fv ← pyGet nd "foods" (.arr [])
  let foods ← pyIter fv
  let foodLines ← mapE renderFoodLine foods
  pure (("\n" ++ mt ++ ":") :: foodLines)

/-- Resolution of the `timeframe` token to a date key. -/
def resolveDate (timeframe today yesterday : String) : String :=
  if timeframe = "today" then today
  else if timeframe = "yesterday" then yesterday
  else timeframe

/-- Body of the `try` block of `get_meal_history` once the file exists,
on the outcome of `json.load`. -/
def historyCore (timeframe today yesterday : String) (content : Except String Json) :
    Except String String := do
  let meals ← content
  let date := resolveDate timeframe today yesterday
  let has ← pyContains date meals
  if !has then
    pure ("No meals for " ++ date)
  else do
    let entry ← pySubscript meals date
    let entries ← pyIter entry
    let blocks ← mapE renderMeal entries
    pure (joinLines (("📅 Meals for " ++ date ++ ":") :: blocks.flatten))

/-- `get_meal_history` from `oaitools.py`: the absent file short-circuits
to `"No meal history yet!"`, any raise inside the `try` block surfaces
as `f"History error: ..."`. -/
def get_meal_history (timeframe today yesterday : String) (st : MealStore) : String :=
  match st with
  | none => "No meal history yet!"
  | some content =>
    match historyCore timeframe today yesterday content with
    | .ok s => s
    | .error e => "History error: " ++ e

/-! ## oaimain.py: ask_nutrition_agent -/

/-- One turn of the in-memory conversation history
(`HumanMessage` / `AIMessage`). -/
inductive ChatMsg where
  | human : String → ChatMsg
  | ai : String → ChatMsg
deriving Repr, DecidableEq

/-- The module-level `user_conversations` dict: user id to turn list. -/
abbrev Convs := List (String × List ChatMsg)

/-- `ask_nutrition_agent` from `oaimain.py`.  The agent executor is the
function's only external effect and is passed in as a function from the
user input and prior history to either the reply text (`result["output"]`)
or a raised exception.  Returns the reply and the conversation map
afterwards; note that the creation of a missing `user_conversations`
entry happens before the executor runs, so it survives an executor
raise. -/
def ask_nutrition_agent (executor : String → List ChatMsg → Except String String)
    (user_input user_id : String) (convs : Convs) : String × Convs :=
  let convs1 := match alookup user_id convs with
    | none => convs ++ [(user_id, [])]
    | some _ => convs
  let hist := (alookup user_id convs1).getD []
  match executor user_input hist with
  | .ok out => (out, aset user_id (hist ++ [.human user_input, .ai out]) convs1)
  | .error e => ("Sorry, I encountered an error. Please try again! " ++ e, convs1)

/-! ## bot.py: telegram_webhook -/

/-- What a run of the webhook handler produced: the follow-up
`sendMessage` POST bodies, the handler's own HTTP response body, and
whether `ask_nutrition_agent` was invoked. -/
structure WebhookOutcome where
  sends : List Json
  body : List (String × Json)
  agentInvoked : Bool
deriving Repr

/-- The handler's acknowledgment body `\x7b"ok": True\x7d`. -/
def okBody : List (String × Json) := [("ok", .bool true)]

/-- The body of the `requests.post(f"...sendMessage", json=...)` call. -/
def sendMessagePayload (chatId : Json) (text : String) : Json :=
  .obj [("chat_id", chatId), ("text", .str text), ("parse_mode", .str "Markdown")]

/-- The static welcome reply of the `/start` branch. -/
def welcomeText : String :=
  "🥗 *Nutrition Agent Started!*\n\nTell me what you ate and I'll analyze it!"

/-- The fixed apology used when `ask_nutrition_agent` raises. -/
def webhookApology : String := "Sorry, I'm having trouble right now. Please try again!"

/-- `telegram_webhook` from `bot.py` on an already-parsed request body.
The agent is passed in as a function of the text and the user id; a
`.error` outcome of the whole handler models an uncaught exception
(which FastAPI turns into a 500 response, not `\x7b"ok": True\x7d`). -/
def telegram_webhook (agent : String → String → Except String String) (data : Json) :
    Except String WebhookOutcome := do
  let has ← pyContains "message" data
  if !has then
    pure ⟨[], okBody, false⟩
  else do
    let msg ← pySubscript data "message"
    let chat ← pySubscript msg "chat"
    let chatId ← pySubscript chat "id"
    let fromObj ← pySubscript msg "from"
    let fromId ← pySubscript fromObj "id"
    let userId := pyStr fromId
    let textV ← pyGet msg "text" (.str "")
    let text ← match textV with
      | .str s => Except.ok (pyStrip s)
      | _ => Except.error "AttributeError: strip"
    if pyStartsWith text "/start" then
      pure ⟨[sendMessagePayload chatId welcomeText], okBody, false⟩
    else
      let reply := match agent text userId with
        | .ok r => r
        | .error _ => webhookApology
      pure ⟨[sendMessagePayload chatId reply], okBody, true⟩

/-! ## Specification-side definitions -/

/-- The six per-food nutrient fields summed by `format_nutrition_facts`. -/
def nutrientKeys : List String :=
  ["nf_calories", "nf_protein", "nf_total_carbohydrate", "nf_total_fat",
   "nf_dietary_fiber", "nf_sugars"]

/-- A food item is well formed when it is an object and each of the six
nutrient fields is absent or a JSON number. -/
def wfFood : Json → Bool
  | .obj kvs => nutrientKeys.all (fun k =>
      match alookup k kvs with
      | none => true
      | some (.num _) => true
      | some _ => false)
  | _ => false

/-- The numeric value a food item contributes to a nutrient total: the
field's number when present, zero when absent. -/
def fieldVal (key : String) : Json → ℚ
  | .obj kvs =>
    match alookup key kvs with
    | some (.num q) => q
    | _ => 0
  | _ => 0

/-- `food.get("food_name", "Unknown")` as a pure value on objects. -/
def foodNameVal : Json → Json
  | .obj kvs => (alookup "food_name" kvs).getD (.str "Unknown")
  | _ => .str "Unknown"

/-- The pure rendering of the numbered `Food Items` listing. -/
def itemLines : List Json → ℕ → List String
  | [], _ => []
  | f :: rest, i =>
    (toString i ++ ". " ++ pyStr (foodNameVal f) ++ " - " ++
        fmt0 (fieldVal "nf_calories" f) ++ " kcal")
      :: itemLines rest (i + 1)

/-- The six totals lines of the breakdown, each containing the formatted
sum of the corresponding per-item field. -/
def totalsLines (foods : List Json) : List String :=
  ["🔥 Calories: " ++ fmt0 ((foods.map (fieldVal "nf_calories")).sum) ++ " kcal",
   "💪 Protein: " ++ fmt1 ((foods.map (fieldVal "nf_protein")).sum) ++ "g",
   "🍞 Carbs: " ++ fmt1 ((foods.map (fieldVal "nf_total_carbohydrate")).sum) ++ "g",
   "🥑 Fat: " ++ fmt1 ((foods.map (fieldVal "nf_total_fat")).sum) ++ "g",
   "🌾 Fiber: " ++ fmt1 ((foods.map (fieldVal "nf_dietary_fiber")).sum) ++ "g",
   "🍭 Sugar: " ++ fmt1 ((foods.map (fieldVal "nf_sugars")).sum) ++ "g"]

/-- A sample food item used by concrete witnesses. -/
def idliFood : Json :=
  .obj [("food_name", .str "idli"), ("nf_calories", .num 58), ("nf_protein", .num 2)]

/-- A second sample food item used by concrete witnesses. -/
def sambarFood : Json :=
  .obj [("food_name", .str "sambar"), ("nf_calories", .num 150), ("nf_sugars", .num (7/2))]

/-- The parsed log's entry for a key, `none` when the file is absent,
unreadable, or not an object. -/
def logLookup (st : MealStore) (k : String) : Option Json :=
  match st with
  | some (.ok (.obj kvs)) => alookup k kvs
  | _ => none

/-- The list of meals stored under a date key. -/
def storedMeals (st : MealStore) (k : String) : List Json :=
  match logLookup st k with
  | some (.arr xs) => xs
  | _ => []

/-- A well-formed store: the file is absent, or holds an object whose
values are lists. -/
def WFStore (st : MealStore) : Prop :=
  st = none ∨ ∃ kvs, st = some (.ok (.obj kvs)) ∧ ∀ p ∈ kvs, ∃ xs, p.2 = Json.arr xs

/-- A concrete saved meal record used by witnesses. -/
def lunchMeal : Json :=
  .obj [("meal_type", .str "lunch"),
        ("nutrition_data", .obj [("foods", .arr [idliFood])])]

/-- A payload whose fields, when present, have the shapes the handler
dereferences: either no `message` key, or a message object carrying
`chat.id` and `from.id` with `text` absent or a string. -/
def WfPayload (data : Json) : Prop :=
  ∃ kvs, data = .obj kvs ∧
    (alookup "message" kvs = none ∨
      ∃ mkvs ckvs fkvs cid fid, alookup "message" kvs = some (.obj mkvs) ∧
        alookup "chat" mkvs = some (.obj ckvs) ∧ alookup "id" ckvs = some cid ∧
        alookup "from" mkvs = some (.obj fkvs) ∧ alookup "id" fkvs = some fid ∧
        (alookup "text" mkvs = none ∨ ∃ s, alookup "text" mkvs = some (.str s)))

/-! ## Theorems -/

lemma alookup_aset_self {β : Type} (k : String) (v : β) (l : List (String × β)) :
    alookup k (aset k v l) = some v := by
  induction l with
  | nil => simp [aset, alookup]
  | cons p rest ih =>
    obtain ⟨k', v'⟩ := p
    by_cases h : k' = k <;> simp [aset, alookup, h, ih]

lemma alookup_aset_ne {β : Type} {k k' : String} (hne : k' ≠ k) (v : β)
    (l : List (String × β)) :
    alookup k' (aset k v l) = alookup k' l := by
  induction l with
  | nil => simp [aset, alookup, Ne.symm hne]
  | cons p rest ih =>
    obtain ⟨k0, v0⟩ := p
    by_cases h : k0 = k
    · subst h
      simp [aset, alookup, hne, Ne.symm hne]
    · simp [aset, alookup, h, ih]

lemma alookup_append {β : Type} (k : String) (l l' : List (String × β)) :
    alookup k (l ++ l') =
      match alookup k l with
      | some v => some v
      | none => alookup k l' := by
  induction l with
  | nil => simp [alookup]
  | cons p rest ih =>
    obtain ⟨k0, v0⟩ := p
    by_cases h : k0 = k <;> simp [alookup, h, ih]

lemma alookup_some_mem {β : Type} {k : String} {v : β} :
    ∀ {l : List (String × β)}, alookup k l = some v → (k, v) ∈ l := by
  intro l
  induction l with
  | nil => intro h; simp [alookup] at h
  | cons p rest ih =>
    obtain ⟨k0, v0⟩ := p
    intro h
    by_cases hk : k0 = k
    · subst hk
      simp [alookup] at h
      simp [h]
    · simp [alookup, hk] at h
      exact List.mem_cons_of_mem _ (ih h)

lemma mem_joinLines_infix {s : String} : ∀ {ls : List String}, s ∈ ls →
    s.toList <:+: (joinLines ls).toList := by
  intro ls
  induction ls with
  | nil => intro h; cases h
  | cons x rest ih =>
    intro h
    cases rest with
    | nil =>
      rcases List.mem_cons.mp h with rfl | hmem
      · exact ⟨[], [], by simp [joinLines]⟩
      · cases hmem
    | cons y t =>
      rcases List.mem_cons.mp h with rfl | hmem
      · refine ⟨[], ("\n" ++ joinLines (y :: t)).toList, ?_⟩
        simp [joinLines, String.data_append]
      · obtain ⟨p, q, hpq⟩ := ih hmem
        refine ⟨(x ++ "\n").toList ++ p, q, ?_⟩
        simp only [joinLines, List.append_assoc, hpq]
        simp [String.data_append]

lemma mapE_ok_exists {α β : Type} {f : α → Except String β} : ∀ {l : List α},
    (∀ a ∈ l, ∃ b, f a = .ok b) → ∃ bs, mapE f l = .ok bs := by
  intro l
  induction l with
  | nil => intro _; exact ⟨[], rfl⟩
  | cons a as ih =>
    intro h
    obtain ⟨b, hb⟩ := h a (List.mem_cons_self a as)
    obtain ⟨bs, hbs⟩ := ih (fun x hx => h x (List.mem_cons_of_mem a hx))
    exact ⟨b :: bs, by simp [mapE, hb, hbs, Bind.bind, Except.bind, pure, Except.pure]⟩

lemma mapE_append {α β : Type} {f : α → Except String β} {l₁ l₂ : List α}
    {bs₁ bs₂ : List β} (h₁ : mapE f l₁ = .ok bs₁) (h₂ : mapE f l₂ = .ok bs₂) :
    mapE f (l₁ ++ l₂) = .ok (bs₁ ++ bs₂) := by
  induction l₁ generalizing bs₁ with
  | nil =>
    simp [mapE] at h₁
    subst h₁
    simpa using h₂
  | cons a as ih =>
    simp only [mapE, Bind.bind, Except.bind] at h₁
    cases ha : f a with
    | error e => simp [ha] at h₁
    | ok b =>
      simp only [ha] at h₁
      cases has : mapE f as with
      | error e => simp [has] at h₁
      | ok bs =>
        simp only [has, pure, Except.pure, Except.ok.injEq] at h₁
        subst h₁
        simp only [List.cons_append, mapE, Bind.bind, Except.bind, ha, List.append_eq]
        rw [ih has]
        simp [pure, Except.pure]

lemma saveCore_ok (data : Json) (today : String) (st : MealStore) (hst : WFStore st) :
    ∃ kvs', saveCore (.ok data) today st = .ok (.obj kvs') ∧
      alookup today kvs' = some (.arr (storedMeals st today ++ [data])) ∧
      ∀ k, k ≠ today → alookup k kvs' = logLookup st k := by
  rcases hst with rfl | ⟨kvs, rfl, hvals⟩
  · refine ⟨[(today, Json.arr [data])], ?_, ?_, ?_⟩
    · simp [saveCore, pyContains, pySetItem, pySubscript, alookup, aset,
        Bind.bind, Except.bind, pure, Except.pure]
    · simp [alookup, storedMeals, logLookup]
    · intro k hk
      simp [alookup, logLookup, Ne.symm hk]
  · cases halook : alookup today kvs with
    | none =>
      refine ⟨aset today (Json.arr [data]) (aset today (Json.arr []) kvs), ?_, ?_, ?_⟩
      · simp [saveCore, pyContains, pySetItem, pySubscript, halook,
          alookup_aset_self, Bind.bind, Except.bind, pure, Except.pure]
      · rw [alookup_aset_self]
        simp [storedMeals, logLookup, halook]
      · intro k hk
        rw [alookup_aset_ne hk, alookup_aset_ne hk]
        simp [logLookup]
    | some v =>
      obtain ⟨xs, hxs⟩ := hvals (today, v) (alookup_some_mem halook)
      subst hxs
      refine ⟨aset today (Json.arr (xs ++ [data])) kvs, ?_, ?_, ?_⟩
      · simp [saveCore, pyContains, pySetItem, pySubscript, halook,
          Bind.bind, Except.bind, pure, Except.pure]
      · rw [alookup_aset_self]
        simp [storedMeals, logLookup, halook]
      · intro k hk
        rw [alookup_aset_ne hk]
        simp [logLookup]

/-- C5: for a timeframe whose resolved date key has no stored meals —
including when the meal-log file does not exist — `get_meal_history`
returns the corresponding "nothing found" message; it is a total
function, so no exception escapes. -/
theorem get_meal_history_nothing (timeframe today yesterday : String) (st : MealStore) :
    (st = none → get_meal_history timeframe today yesterday st = "No meal history yet!") ∧
    (∀ kvs, st = some (.ok (.obj kvs)) →
      alookup (resolveDate timeframe today yesterday) kvs = none →
      get_meal_history timeframe today yesterday st =
        "No meals for " ++ resolveDate timeframe today yesterday) := by
  constructor
  · rintro rfl
    rfl
  · rintro kvs rfl hnone
    simp [get_meal_history, historyCore, pyContains, hnone, Bind.bind, Except.bind,
      pure, Except.pure]

/-- Witness for C5: absent file, and existing file without the key. -/
theorem get_meal_history_nothing_witness :
    get_meal_history "today" "2026-10-12" "2026-10-11" none = "No meal history yet!" ∧
    get_meal_history "today" "2026-10-12" "2026-10-11" (some (.ok (.obj []))) =
      "No meals for " ++ resolveDate "today" "2026-10-12" "2026-10-11" :=
  ⟨(get_meal_history_nothing "today" "2026-10-12" "2026-10-11" none).1 rfl,
   (get_meal_history_nothing "today" "2026-10-12" "2026-10-11" (some (.ok (.obj [])))).2
     [] rfl rfl⟩

/-- C10: on a successful agent invocation `ask_nutrition_agent` returns
the agent's output and appends exactly the user turn followed by the
reply turn to the calling user's history, leaving every other user's
history unchanged; when the invocation raises it returns the apology
text, appends no turns to the calling user's history, and leaves every
other user's history unchanged. -/
theorem ask_nutrition_agent_spec (executor : String → List ChatMsg → Except String String)
    (user_input user_id : String) (convs : Convs) :
    (∀ out, executor user_input ((alookup user_id convs).getD []) = .ok out →
      (ask_nutrition_agent executor user_input user_id convs).1 = out ∧
      alookup user_id (ask_nutrition_agent executor user_input user_id convs).2 =
        some ((alookup user_id convs).getD [] ++ [.human user_input, .ai out]) ∧
      ∀ u, u ≠ user_id →
        alookup u (ask_nutrition_agent executor user_input user_id convs).2 =
          alookup u convs) ∧
    (∀ e, executor user_input ((alookup user_id convs).getD []) = .error e →
      (ask_nutrition_agent executor user_input user_id convs).1 =
        "Sorry, I encountered an error. Please try again! " ++ e ∧
      (alookup user_id (ask_nutrition_agent executor user_input user_id convs).2).getD [] =
        (alookup user_id convs).getD [] ∧
      ∀ u, u ≠ user_id →
        alookup u (ask_nutrition_agent executor user_input user_id convs).2 =
          alookup u convs) := by
  have hconv1 : ∀ u, u ≠ user_id →
      alookup u (match alookup user_id convs with
        | none => convs ++ [(user_id, [])]
        | some _ => convs) = alookup u convs := by
    intro u hu
    cases h : alookup user_id convs with
    | none =>
      rw [alookup_append]
      cases h' : alookup u convs with
      | none => simp [alookup, Ne.symm hu]
      | some v => simp
    | some v => rfl
  have hhist : (alookup user_id (match alookup user_id convs with
      | none => convs ++ [(user_id, [])]
      | some _ => convs)).getD [] = (alookup user_id convs).getD [] := by
    cases h : alookup user_id convs with
    | none =>
      rw [alookup_append, h]
      simp [alookup]
    | some v => simp [h]
  constructor
  · intro out hex
    simp only [ask_nutrition_agent]
    rw [hhist, hex]
    refine ⟨rfl, ?_, ?_⟩
    · rw [alookup_aset_self]
    · intro u hu
      rw [alookup_aset_ne hu]
      exact hconv1 u hu
  · intro e hex
    simp only [ask_nutrition_agent]
    rw [hhist, hex]
    exact ⟨rfl, hhist, hconv1⟩

/-- Witness for C10: a fresh user with a successful agent call, with an
unrelated user's history untouched. -/
theorem ask_nutrition_agent_spec_witness :
    (ask_nutrition_agent (fun _ _ => .ok "reply") "hello" "u1" [("u2", [.human "x"])]).1 =
      "reply" ∧
    alookup "u1" (ask_nutrition_agent (fun _ _ => .ok "reply") "hello" "u1"
      [("u2", [.human "x"])]).2 = some [.human "hello", .ai "reply"] ∧
    alookup "u2" (ask_nutrition_agent (fun _ _ => .ok "reply") "hello" "u1"
      [("u2", [.human "x"])]).2 = some [.human "x"] := by
  have h := (ask_nutrition_agent_spec (fun _ _ => .ok "reply") "hello" "u1"
    [("u2", [.human "x"])]).1 "reply" rfl
  refine ⟨h.1, ?_, ?_⟩
  · rw [h.2.1]
    simp [alookup]
  · have := h.2.2 "u2" (by decide)
    simp only [this]
    rfl

/-- C9: with a well-formed store, `save_meal_data` on a parsed record
appends exactly that record to today's list, leaves every other date
key unchanged, rewrites the file as a whole, and reports success; when
the input does not parse, or the existing file fails to load, it
returns the textual failure message and the store is unchanged. -/
theorem save_meal_data_spec (data : Json) (e : String) (today : String) (st : MealStore)
    (hst : WFStore st) :
    ((save_meal_data (.ok data) today st).1 = "✅ Meal saved successfully!" ∧
     (∃ kvs', (save_meal_data (.ok data) today st).2 = some (.ok (.obj kvs'))) ∧
     logLookup (save_meal_data (.ok data) today st).2 today =
       some (.arr (storedMeals st today ++ [data])) ∧
     ∀ k, k ≠ today →
       logLookup (save_meal_data (.ok data) today st).2 k = logLookup st k) ∧
    save_meal_data (.error e) today st = ("❌ Save failed: " ++ e, st) ∧
    (∀ pe, save_meal_data (.ok data) today (some (.error pe)) =
      ("❌ Save failed: " ++ pe, some (.error pe))) := by
  obtain ⟨kvs', h1, h2, h3⟩ := saveCore_ok data today st hst
  refine ⟨?_, ?_, ?_⟩
  · rw [save_meal_data, h1]
    refine ⟨rfl, ⟨kvs', rfl⟩, ?_, ?_⟩
    · simpa [logLookup] using h2
    · intro k hk
      simpa [logLookup] using h3 k hk
  · simp [save_meal_data, saveCore, Bind.bind, Except.bind]
  · intro pe
    simp [save_meal_data, saveCore, Bind.bind, Except.bind]

/-- Witness for C9: saving a concrete record into an absent file. -/
theorem save_meal_data_spec_witness :
    ((save_meal_data (.ok (.obj [("meal_type", .str "lunch")])) "2026-10-12" none).1 =
      "✅ Meal saved successfully!" ∧
     (∃ kvs', (save_meal_data (.ok (.obj [("meal_type", .str "lunch")]))
        "2026-10-12" none).2 = some (.ok (.obj kvs'))) ∧
     logLookup (save_meal_data (.ok (.obj [("meal_type", .str "lunch")]))
        "2026-10-12" none).2 "2026-10-12" =
       some (.arr (storedMeals none "2026-10-12" ++ [.obj [("meal_type", .str "lunch")]])) ∧
     ∀ k, k ≠ "2026-10-12" →
       logLookup (save_meal_data (.ok (.obj [("meal_type", .str "lunch")]))
          "2026-10-12" none).2 k = logLookup none k) ∧
    save_meal_data (.error "bad json") "2026-10-12" none =
      ("❌ Save failed: " ++ "bad json", none) ∧
    (∀ pe, save_meal_data (.ok (.obj [("meal_type", .str "lunch")]))
        "2026-10-12" (some (.error pe)) = ("❌ Save failed: " ++ pe, some (.error pe))) :=
  save_meal_data_spec (.obj [("meal_type", .str "lunch")]) "bad json" "2026-10-12" none
    (Or.inl rfl)

/-- C4: saving a renderable meal record into a well-formed store whose
existing meals for today are renderable succeeds, and every line that
the record contributes to the history rendering — its meal-type header
and one line per food item with its calories — occurs verbatim inside
the string returned by `get_meal_history "today"`. -/
theorem save_then_read (data : Json) (dlines : List String) (today yesterday : String)
    (st : MealStore) (hst : WFStore st)
    (hprev : ∀ m ∈ storedMeals st today, ∃ ls, renderMeal m = .ok ls)
    (hdata : renderMeal data = .ok dlines) :
    (save_meal_data (.ok data) today st).1 = "✅ Meal saved successfully!" ∧
    ∀ line ∈ dlines,
      line.toList <:+:
        (get_meal_history "today" today yesterday
          (save_meal_data (.ok data) today st).2).toList := by
  obtain ⟨kvs', h1, h2, h3⟩ := saveCore_ok data today st hst
  rw [save_meal_data, h1]
  constructor
  · rfl
  · intro line hline
    obtain ⟨oldBlocks, holdb⟩ := mapE_ok_exists hprev
    have hlast : mapE renderMeal [data] = .ok [dlines] := by
      simp [mapE, hdata, Bind.bind, Except.bind, pure, Except.pure]
    have hmap := mapE_append holdb hlast
    have hist : get_meal_history "today" today yesterday (some (.ok (.obj kvs'))) =
        joinLines (("📅 Meals for " ++ today ++ ":") :: (oldBlocks ++ [dlines]).flatten) := by
      simp [get_meal_history, historyCore, resolveDate, pyContains, h2, pySubscript, pyIter,
        hmap, Bind.bind, Except.bind, pure, Except.pure]
    rw [hist]
    apply mem_joinLines_infix
    exact List.mem_cons_of_mem _ (List.mem_flatten.mpr ⟨dlines, by simp, hline⟩)

/-- Witness for C4: a concrete meal saved into an absent file and read
back from today's history. -/
theorem save_then_read_witness :
    (save_meal_data (.ok lunchMeal) "2026-10-12" none).1 = "✅ Meal saved successfully!" ∧
    ∀ line ∈ ["\nLunch:", "  • idli - " ++ fmt0 58 ++ " cal"],
      line.toList <:+:
        (get_meal_history "today" "2026-10-12" "2026-10-11"
          (save_meal_data (.ok lunchMeal) "2026-10-12" none).2).toList :=
  save_then_read lunchMeal ["\nLunch:", "  • idli - " ++ fmt0 58 ++ " cal"]
    "2026-10-12" "2026-10-11" none (Or.inl rfl)
    (by intro m hm; simp [storedMeals, logLookup] at hm) rfl

/-- C1: `detect_meal_type` is deterministic and total — it is a function,
and for every input it returns one of the five labels `breakfast`,
`lunch`, `dinner`, `snack`, `unknown`; when keywords of several groups
occur the result follows the fixed priority breakfast > lunch > dinner >
snack, and `unknown` is returned exactly when no keyword group matches
the lowercased text. -/
theorem detect_meal_type_spec (s : String) :
    detect_meal_type s ∈ ["breakfast", "lunch", "dinner", "snack", "unknown"] ∧
    (kwHit ["breakfast", "morning"] (strToLower s) = true → detect_meal_type s = "breakfast") ∧
    (kwHit ["breakfast", "morning"] (strToLower s) = false →
      kwHit ["lunch", "noon", "afternoon"] (strToLower s) = true →
      detect_meal_type s = "lunch") ∧
    (kwHit ["breakfast", "morning"] (strToLower s) = false →
      kwHit ["lunch", "noon", "afternoon"] (strToLower s) = false →
      kwHit ["dinner", "evening", "night", "supper"] (strToLower s) = true →
      detect_meal_type s = "dinner") ∧
    (kwHit ["breakfast", "morning"] (strToLower s) = false →
      kwHit ["lunch", "noon", "afternoon"] (strToLower s) = false →
      kwHit ["dinner", "evening", "night", "supper"] (strToLower s) = false →
      kwHit ["snack", "snacking"] (strToLower s) = true →
      detect_meal_type s = "snack") ∧
    (detect_meal_type s = "unknown" ↔
      kwHit ["breakfast", "morning"] (strToLower s) = false ∧
      kwHit ["lunch", "noon", "afternoon"] (strToLower s) = false ∧
      kwHit ["dinner", "evening", "night", "supper"] (strToLower s) = false ∧
      kwHit ["snack", "snacking"] (strToLower s) = false) := by
  unfold detect_meal_type
  cases hb : kwHit ["breakfast", "morning"] (strToLower s) <;>
    cases hl : kwHit ["lunch", "noon", "afternoon"] (strToLower s) <;>
    cases hd : kwHit ["dinner", "evening", "night", "supper"] (strToLower s) <;>
    cases hs : kwHit ["snack", "snacking"] (strToLower s) <;>
    simp [hb, hl, hd, hs]

/-- Witness for C1: on an input mentioning both dinner and breakfast the
priority picks breakfast. -/
theorem detect_meal_type_spec_witness :
    kwHit ["breakfast", "morning"] (strToLower "dinner and BREAKFAST") = true ∧
    detect_meal_type "dinner and BREAKFAST" = "breakfast" :=
  ⟨by decide, (detect_meal_type_spec "dinner and BREAKFAST").2.1 (by decide)⟩

lemma wfFood_getNum {f : Json} {key : String} (hf : wfFood f = true)
    (hk : key ∈ nutrientKeys) :
    (pyGet f key (.num 0)).bind pyToNum = .ok (fieldVal key f) := by
  cases f with
  | obj kvs =>
    simp only [wfFood, List.all_eq_true] at hf
    have hv := hf key hk
    cases h : alookup key kvs with
    | none => simp [pyGet, h, fieldVal, pyToNum, Except.bind]
    | some v => cases v <;> simp_all [pyGet, fieldVal, pyToNum, Except.bind]
  | null => simp [wfFood] at hf
  | bool b => simp [wfFood] at hf
  | num q => simp [wfFood] at hf
  | str s => simp [wfFood] at hf
  | arr xs => simp [wfFood] at hf

lemma sumFieldAux_eq {key : String} {foods : List Json}
    (hwf : ∀ f ∈ foods, wfFood f = true) (hk : key ∈ nutrientKeys) (acc : ℚ) :
    sumFieldAux key foods acc = .ok (acc + (foods.map (fieldVal key)).sum) := by
  induction foods generalizing acc with
  | nil => simp [sumFieldAux]
  | cons f fs ih =>
    have hf := hwf f (List.mem_cons_self f fs)
    have hrest : ∀ g ∈ fs, wfFood g = true := fun g hg => hwf g (List.mem_cons_of_mem f hg)
    have hstep := wfFood_getNum hf hk
    cases hg : pyGet f key (.num 0) with
    | error e => simp [hg, Except.bind] at hstep
    | ok v =>
      cases hn : pyToNum v with
      | error e => simp [hg, hn, Except.bind] at hstep
      | ok q =>
        simp only [hg, hn, Except.bind] at hstep
        simp only [Except.ok.injEq] at hstep
        simp only [sumFieldAux, hg, hn, Bind.bind, Except.bind]
        rw [ih hrest]
        simp [hstep, add_assoc]

lemma sumField_eq {foods : List Json} {key : String}
    (hwf : ∀ f ∈ foods, wfFood f = true) (hk : key ∈ nutrientKeys) :
    sumField foods key = .ok ((foods.map (fieldVal key)).sum) := by
  have := sumFieldAux_eq hwf hk 0
  simpa [sumField] using this

lemma listItems_eq {foods : List Json}
    (hwf : ∀ f ∈ foods, wfFood f = true) (i : ℕ) :
    listItems foods i = .ok (itemLines foods i) := by
  induction foods generalizing i with
  | nil => simp [listItems, itemLines]
  | cons f fs ih =>
    have hf := hwf f (List.mem_cons_self f fs)
    have hrest : ∀ g ∈ fs, wfFood g = true := fun g hg => hwf g (List.mem_cons_of_mem f hg)
    have hcal := wfFood_getNum hf (show "nf_calories" ∈ nutrientKeys by simp [nutrientKeys])
    cases f with
    | obj kvs =>
      simp only [listItems, itemLines, pyGet, Bind.bind, Except.bind] at hcal ⊢
      cases hn : pyToNum ((alookup "nf_calories" kvs).getD (Json.num 0)) with
      | error e => simp [hn] at hcal
      | ok q =>
        simp only [hn] at hcal ⊢
        simp only [Except.ok.injEq] at hcal
        rw [ih hrest]
        simp [hcal, foodNameVal, pure, Except.pure]
    | null => simp [wfFood] at hf
    | bool b => simp [wfFood] at hf
    | num q => simp [wfFood] at hf
    | str s => simp [wfFood] at hf
    | arr xs => simp [wfFood] at hf

lemma formatCore_obj_foods {kvs : List (String × Json)} {foods : List Json}
    (hfoods : alookup "foods" kvs = some (.arr foods))
    (hne : foods ≠ [])
    (hwf : ∀ f ∈ foods, wfFood f = true) :
    formatCore (.obj kvs) = .ok
      (joinLines ("📊 **NUTRITION BREAKDOWN**" :: totalsLines foods ++
        ["", "**Food Items:**"] ++ itemLines foods 1)) := by
  have hcal := sumField_eq hwf (show "nf_calories" ∈ nutrientKeys by simp [nutrientKeys])
  have hpro := sumField_eq hwf (show "nf_protein" ∈ nutrientKeys by simp [nutrientKeys])
  have hcarb := sumField_eq hwf
    (show "nf_total_carbohydrate" ∈ nutrientKeys by simp [nutrientKeys])
  have hfat := sumField_eq hwf (show "nf_total_fat" ∈ nutrientKeys by simp [nutrientKeys])
  have hfib := sumField_eq hwf (show "nf_dietary_fiber" ∈ nutrientKeys by simp [nutrientKeys])
  have hsug := sumField_eq hwf (show "nf_sugars" ∈ nutrientKeys by simp [nutrientKeys])
  have hitems := listItems_eq hwf 1
  have htruthy : pyTruthy (Json.arr foods) = true := by
    simp [pyTruthy, List.isEmpty_iff, hne]
  simp only [formatCore, pyContains, hfoods, Option.isSome_some, pySubscript, pyIter,
    htruthy, hcal, hpro, hcarb, hfat, hfib, hsug, hitems,
    Bind.bind, Except.bind, pure, Except.pure, Bool.not_true, Bool.false_or,
    Bool.not_false, Bool.true_or, if_true, if_false, totalsLines]
  simp

lemma format_no_foods_key {kvs : List (String × Json)}
    (h : alookup "foods" kvs = none) :
    format_nutrition_facts (.ok (.obj kvs)) = "No nutrition data found." := by
  simp [format_nutrition_facts, formatCore, pyContains, h, Bind.bind, Except.bind,
    pure, Except.pure]

lemma format_empty_foods {kvs : List (String × Json)}
    (h : alookup "foods" kvs = some (.arr [])) :
    format_nutrition_facts (.ok (.obj kvs)) = "No nutrition data found." := by
  simp [format_nutrition_facts, formatCore, pyContains, pySubscript, pyTruthy, h,
    Bind.bind, Except.bind, pure, Except.pure]

lemma format_parse_error (e : String) :
    format_nutrition_facts (.error e) = "Error formatting: " ++ e := by
  simp [format_nutrition_facts, Except.bind]

/-- C3: `format_nutrition_facts` returns the fixed no-data message when
the parsed JSON object has no `foods` key or an empty `foods` list, and
maps every JSON parse failure to a textual `Error formatting:` message
instead of raising. -/
theorem format_nutrition_facts_no_data (kvs : List (String × Json)) :
    (alookup "foods" kvs = none →
      format_nutrition_facts (.ok (.obj kvs)) = "No nutrition data found.") ∧
    (alookup "foods" kvs = some (.arr []) →
      format_nutrition_facts (.ok (.obj kvs)) = "No nutrition data found.") ∧
    (∀ e, format_nutrition_facts (.error e) = "Error formatting: " ++ e) :=
  ⟨fun h => format_no_foods_key h, fun h => format_empty_foods h,
   fun e => format_parse_error e⟩

/-- Witness for C3: a parsed object without a `foods` key yields the
no-data message. -/
theorem format_nutrition_facts_no_data_witness :
    alookup "foods" [("status", Json.num 200)] = none ∧
    format_nutrition_facts (.ok (.obj [("status", Json.num 200)])) =
      "No nutrition data found." :=
  ⟨rfl, (format_nutrition_facts_no_data [("status", Json.num 200)]).1 rfl⟩

/-- C2: for a parsed input with a non-empty `foods` list of well-formed
items, the rendered output is the fixed breakdown whose six totals lines
contain exactly the sum of the corresponding per-item field (absent
fields contributing zero), and those totals are invariant under any
permutation of the food list. -/
theorem format_nutrition_facts_totals {kvs : List (String × Json)} {foods : List Json}
    (hfoods : alookup "foods" kvs = some (.arr foods))
    (hne : foods ≠ [])
    (hwf : ∀ f ∈ foods, wfFood f = true) :
    format_nutrition_facts (.ok (.obj kvs)) =
      joinLines ("📊 **NUTRITION BREAKDOWN**" :: totalsLines foods ++
        ["", "**Food Items:**"] ++ itemLines foods 1) ∧
    ∀ foods' : List Json, foods.Perm foods' → totalsLines foods = totalsLines foods' := by
  constructor
  · simp [format_nutrition_facts, Except.bind, formatCore_obj_foods hfoods hne hwf]
  · intro foods' hp
    simp only [totalsLines, (hp.map (fieldVal "nf_calories")).sum_eq,
      (hp.map (fieldVal "nf_protein")).sum_eq,
      (hp.map (fieldVal "nf_total_carbohydrate")).sum_eq,
      (hp.map (fieldVal "nf_total_fat")).sum_eq,
      (hp.map (fieldVal "nf_dietary_fiber")).sum_eq,
      (hp.map (fieldVal "nf_sugars")).sum_eq]

/-- Witness for C2: a concrete two-item food list. -/
theorem format_nutrition_facts_totals_witness :
    format_nutrition_facts (.ok (.obj [("foods", .arr [idliFood, sambarFood])])) =
      joinLines ("📊 **NUTRITION BREAKDOWN**" :: totalsLines [idliFood, sambarFood] ++
        ["", "**Food Items:**"] ++ itemLines [idliFood, sambarFood] 1) ∧
    ∀ foods' : List Json, [idliFood, sambarFood].Perm foods' →
      totalsLines [idliFood, sambarFood] = totalsLines foods' :=
  format_nutrition_facts_totals rfl (by simp)
    (by simp only [List.forall_mem_cons, and_true]
        exact ⟨rfl, rfl, fun x hx => absurd hx (List.not_mem_nil x)⟩)

/-- C6: whenever the nutrition lookup fails (transport failure or HTTP
status ≥ 400), `get_nutrition_data` returns the serialisation of a JSON
object carrying an `error` key, and feeding that object to
`format_nutrition_facts` yields a textual message, not a raise. -/
theorem get_nutrition_data_error_spec (resp : Except String (ℕ × String))
    (h : (∃ e, resp = .error e) ∨ ∃ status text, resp = .ok (status, text) ∧ 400 ≤ status) :
    ∃ e, get_nutrition_data resp = dumpsError e ∧
      pyContains "error" (errorObj e) = .ok true ∧
      format_nutrition_facts (.ok (errorObj e)) = "No nutrition data found." := by
  have hfmt : ∀ e : String, format_nutrition_facts (.ok (errorObj e)) =
      "No nutrition data found." := by
    intro e
    exact format_no_foods_key (by simp [errorObj, alookup])
  rcases h with ⟨e, rfl⟩ | ⟨status, text, rfl, hs⟩
  · exact ⟨e, rfl, by simp [pyContains, errorObj, alookup], hfmt e⟩
  · refine ⟨"HTTPError: " ++ toString status, ?_,
      by simp [pyContains, errorObj, alookup], hfmt _⟩
    simp [get_nutrition_data, hs]

/-- Witness for C6: a transport failure. -/
theorem get_nutrition_data_error_spec_witness :
    ∃ e, get_nutrition_data (.error "ConnectionError") = dumpsError e ∧
      pyContains "error" (errorObj e) = .ok true ∧
      format_nutrition_facts (.ok (errorObj e)) = "No nutrition data found." :=
  get_nutrition_data_error_spec (.error "ConnectionError") (Or.inl ⟨"ConnectionError", rfl⟩)


/-- C7: a payload whose message text strips to a `/start` prefix makes
the handler send exactly the fixed welcome text and return the
acknowledgment without invoking the agent, for every agent function and
independently of all other payload fields. -/
theorem telegram_webhook_start (agent : String → String → Except String String)
    (kvs mkvs ckvs fkvs : List (String × Json)) (cid fid : Json) (textS : String)
    (hmsg : alookup "message" kvs = some (.obj mkvs))
    (hchat : alookup "chat" mkvs = some (.obj ckvs))
    (hcid : alookup "id" ckvs = some cid)
    (hfrom : alookup "from" mkvs = some (.obj fkvs))
    (hfid : alookup "id" fkvs = some fid)
    (htext : alookup "text" mkvs = some (.str textS))
    (hstart : pyStartsWith (pyStrip textS) "/start" = true) :
    telegram_webhook agent (.obj kvs) =
      .ok ⟨[sendMessagePayload cid welcomeText], okBody, false⟩ := by
  simp [telegram_webhook, pyContains, hmsg, pySubscript, hchat, hcid, hfrom, hfid,
    pyGet, htext, hstart, Bind.bind, Except.bind, pure, Except.pure]

/-- Witness for C7: a concrete `/start` payload with extra fields and an
agent that would raise if invoked. -/
theorem telegram_webhook_start_witness :
    telegram_webhook (fun _ _ => .error "agent must not run")
      (.obj [("update_id", .num 1),
             ("message", .obj [("chat", .obj [("id", .num 5)]),
                               ("from", .obj [("id", .num 7)]),
                               ("text", .str "  /start now")])]) =
      .ok ⟨[sendMessagePayload (.num 5) welcomeText], okBody, false⟩ :=
  telegram_webhook_start (fun _ _ => .error "agent must not run")
    [("update_id", .num 1),
     ("message", .obj [("chat", .obj [("id", .num 5)]),
                       ("from", .obj [("id", .num 7)]),
                       ("text", .str "  /start now")])]
    [("chat", .obj [("id", .num 5)]), ("from", .obj [("id", .num 7)]),
     ("text", .str "  /start now")]
    [("id", .num 5)] [("id", .num 7)] (.num 5) (.num 7) "  /start now"
    rfl rfl rfl rfl rfl rfl (by decide)

/-- Counterexample for C8: on the payload `\x7b"message": \x7b\x7d\x7d` the
handler raises `KeyError` (FastAPI then answers 500), so its response
body is not always the `ok` acknowledgment and the inbound message gets
no outbound reply. -/
theorem telegram_webhook_not_always_ok :
    telegram_webhook (fun _ _ => .ok "") (.obj [("message", .obj [])]) =
      .error ("KeyError: " ++ "chat") := rfl

/-- C8 as amended: for every payload without a `message` key, or whose
message carries `chat.id` and `from.id` with `text` absent or a string,
the handler returns the `ok` acknowledgment as its own body, sends no
follow-up message when `message` is absent, and sends exactly one
follow-up `sendMessage` call when a message is present. -/
theorem telegram_webhook_ack (agent : String → String → Except String String)
    (data : Json) (h : WfPayload data) :
    ∃ out, telegram_webhook agent data = .ok out ∧ out.body = okBody ∧
      ((∃ kvs, data = .obj kvs ∧ alookup "message" kvs = none) → out.sends = []) ∧
      (∀ kvs mkvs, data = .obj kvs → alookup "message" kvs = some (.obj mkvs) →
        out.sends.length = 1) := by
  obtain ⟨kvs, rfl, hcase⟩ := h
  rcases hcase with hnone | ⟨mkvs, ckvs, fkvs, cid, fid, hmsg, hchat, hcid, hfrom, hfid, htext⟩
  · refine ⟨⟨[], okBody, false⟩, ?_, rfl, fun _ => rfl, ?_⟩
    · simp [telegram_webhook, pyContains, hnone, Bind.bind, Except.bind, pure, Except.pure]
    · intro kvs2 mkvs2 hk hm
      injection hk with hk
      subst hk
      rw [hnone] at hm
      cases hm
  · have htextval : ∃ t : String,
        (alookup "text" mkvs).getD (Json.str "") = Json.str t := by
      rcases htext with hn | ⟨s, hs⟩
      · exact ⟨"", by simp [hn]⟩
      · exact ⟨s, by simp [hs]⟩
    obtain ⟨t, ht⟩ := htextval
    by_cases hstart : pyStartsWith (pyStrip t) "/start" = true
    · refine ⟨⟨[sendMessagePayload cid welcomeText], okBody, false⟩, ?_, rfl, ?_, ?_⟩
      · simp [telegram_webhook, pyContains, hmsg, pySubscript, hchat, hcid, hfrom, hfid,
          pyGet, ht, hstart, Bind.bind, Except.bind, pure, Except.pure]
      · rintro ⟨kvs2, hk, hnone⟩
        injection hk with hk
        subst hk
        rw [hmsg] at hnone
        cases hnone
      · intro _ _ _ _
        rfl
    · refine ⟨⟨[sendMessagePayload cid (match agent (pyStrip t) (pyStr fid) with
        | .ok r => r
        | .error _ => webhookApology)], okBody, true⟩, ?_, rfl, ?_, ?_⟩
      · simp [telegram_webhook, pyContains, hmsg, pySubscript, hchat, hcid, hfrom, hfid,
          pyGet, ht, hstart, Bind.bind, Except.bind, pure, Except.pure]
      · rintro ⟨kvs2, hk, hnone⟩
        injection hk with hk
        subst hk
        rw [hmsg] at hnone
        cases hnone
      · intro _ _ _ _
        rfl

/-- Witness for the amended C8: a message-less payload. -/
theorem telegram_webhook_ack_witness :
    ∃ out, telegram_webhook (fun _ _ => .ok "hi") (.obj [("update_id", .num 1)]) =
        .ok out ∧ out.body = okBody ∧
      ((∃ kvs, (Json.obj [("update_id", .num 1)]) = .obj kvs ∧
        alookup "message" kvs = none) → out.sends = []) ∧
      (∀ kvs mkvs, (Json.obj [("update_id", .num 1)]) = .obj kvs →
        alookup "message" kvs = some (.obj mkvs) → out.sends.length = 1) :=
  telegram_webhook_ack (fun _ _ => .ok "hi") (.obj [("update_id", .num 1)])
    ⟨[("update_id", .num 1)], rfl, Or.inl rfl⟩

end NutriBot
